import Mathlib

/-!
Verification of the qBittorrent port-sync daemon (`main.go`).

The program is a single Go file: a session-aware HTTP client
(`Login`, `GetListeningPort`, `SetListeningPort`), a port-file parser
(`readPortFile`), and a reconciliation loop (`syncPort`) that keeps the
remote listening port in sync with a port file, holding a mutable
last-known port.

Shallow embedding: each HTTP call is modelled as a pure function from
the response the server would give (or a transport-level error) to the
Go function's result.  `syncPort` makes at most six HTTP calls in a
fixed pattern, so we model the server as an `Oracle` holding the
response for each of the six possible call slots, and `syncPort`
returns the new last-known port together with the list of HTTP calls
actually made, so that call-count properties can be stated.
Errors are modelled as the Go error strings, since the loop dispatches
on error-message text (`strings.Contains(err.Error(), ...)`).
-/

/-- Go `unicode.IsSpace`: the characters stripped by `strings.TrimSpace`. -/
def goIsSpace (c : Char) : Bool :=
  c == '\x09' || c == '\x0A' || c == '\x0B' || c == '\x0C' || c == '\x0D' ||
  c == '\x20' || c == '\u0085' || c == '\u00A0' || c == '\u1680' ||
  ('\u2000' ≤ c && c ≤ '\u200A') || c == '\u2028' || c == '\u2029' ||
  c == '\u202F' || c == '\u205F' || c == '\u3000'

/-- Go `strings.TrimSpace`: drop leading and trailing white space. -/
def trimSpace (s : String) : String :=
  String.mk (((s.data.dropWhile goIsSpace).reverse.dropWhile goIsSpace).reverse)

/-- `leadMatch pat cs` holds when `pat` occurs at the very front of `cs`. -/
def leadMatch : List Char → List Char → Bool
  | [], _ => true
  | _ :: _, [] => false
  | p :: ps, c :: cs => p == c && leadMatch ps cs

/-- `listOccurs pat cs`: `pat` occurs contiguously somewhere in `cs`. -/
def listOccurs (pat : List Char) : List Char → Bool
  | [] => leadMatch pat []
  | c :: cs => leadMatch pat (c :: cs) || listOccurs pat cs

/-- Go `strings.Contains s pat`. -/
def strContains (s pat : String) : Bool :=
  listOccurs pat.data s.data

/-- Inner digit loop of Go `strconv.Atoi` on an unsigned digit string:
accumulate base-10 value, failing at the first non-digit. -/
def digitsLoop : List Char → Nat → Option Nat
  | [], acc => some acc
  | c :: cs, acc =>
      if c.isDigit then digitsLoop cs (10 * acc + (c.toNat - 48)) else none

/-- Value of a non-empty all-digit string; `none` on empty or any non-digit. -/
def digitsToNat : List Char → Option Nat
  | [] => none
  | c :: cs => digitsLoop (c :: cs) 0

/-- Go `strconv.Atoi` (via `ParseInt`): strip one leading `+` or `-`,
then parse a non-empty run of ASCII digits; fail on anything else and
on overflow past the 64-bit signed range. -/
def atoi (s : String) : Option Int :=
  let cs := s.data
  let ds := if cs.head? = some '+' ∨ cs.head? = some '-' then cs.tail else cs
  match digitsToNat ds with
  | none => none
  | some n =>
      let v : Int := if cs.head? = some '-' then -(n : Int) else (n : Int)
      if v < -(2 ^ 63) ∨ 2 ^ 63 - 1 < v then none else some v

/-- `readPortFile`: the file content (`none` models an `os.ReadFile`
failure), trimmed, parsed by `Atoi`, then range-checked to [1,65535].
Result is the port or the Go error message. -/
def readPortFile (file : Option String) : Except String Int :=
  match file with
  | none => .error "failed to read port file"
  | some data =>
      let portStr := trimSpace data
      match atoi portStr with
      | none => .error ("invalid port number: " ++ portStr)
      | some port =>
          if port < 1 ∨ 65535 < port then
            .error ("port number out of range: " ++ toString port)
          else
            .ok port

/-- Outcome of one HTTP round trip: transport error (Go `err != nil`
from the `http.Client` call) or a response. -/
inductive HttpResult (α : Type) where
  | netErr (msg : String)
  | ok (resp : α)
deriving DecidableEq, Repr

/-- Response to the login POST: status code and raw body. -/
structure LoginResp where
  status : Nat
  body : String
deriving DecidableEq, Repr

instance {ε α : Type} [DecidableEq ε] [DecidableEq α] : DecidableEq (Except ε α) := fun x y =>
  match x, y with
  | .error a, .error b =>
      if h : a = b then isTrue (by rw [h]) else isFalse (fun hc => h (Except.error.inj hc))
  | .error _, .ok _ => isFalse (fun hc => Except.noConfusion hc)
  | .ok _, .error _ => isFalse (fun hc => Except.noConfusion hc)
  | .ok a, .ok b =>
      if h : a = b then isTrue (by rw [h]) else isFalse (fun hc => h (Except.ok.inj hc))

/-- Response to the preferences GET: status code, and the outcome of
JSON-decoding the body: `.error m` models a `json.Decoder` failure,
`.ok none` a decoded object whose `listen_port` is absent or not
numeric, `.ok (some p)` a numeric `listen_port` of integral value `p`
(Go truncates the float64 with `int(port)`). -/
structure GetResp where
  status : Nat
  decode : Except String (Option Int)
deriving DecidableEq, Repr

/-- Response to the setPreferences POST: status code and raw body. -/
structure SetResp where
  status : Nat
  body : String
deriving DecidableEq, Repr

/-- `(*QBittorrentClient).Login` applied to the server's response. -/
def login (r : HttpResult LoginResp) : Except String Unit :=
  match r with
  | .netErr m => .error ("login request failed: " ++ m)
  | .ok resp =>
      let bodyStr := trimSpace resp.body
      if resp.status ≠ 200 ∨ bodyStr ≠ "Ok." then
        .error ("login failed: status=" ++ toString resp.status ++ ", body=" ++ bodyStr)
      else
        .ok ()

/-- `(*QBittorrentClient).GetListeningPort` applied to the server's
response: 403 is the distinguished expired-session error, any other
non-200 a generic status error, then the decoded `listen_port`. -/
def getListeningPort (r : HttpResult GetResp) : Except String Int :=
  match r with
  | .netErr m => .error ("failed to get preferences: " ++ m)
  | .ok resp =>
      if resp.status = 403 then .error "authentication expired"
      else if resp.status ≠ 200 then
        .error ("unexpected status code: " ++ toString resp.status)
      else
        match resp.decode with
        | .error m => .error ("failed to decode preferences: " ++ m)
        | .ok none => .error "listen_port not found in preferences"
        | .ok (some p) => .ok p

/-- `(*QBittorrentClient).SetListeningPort port` applied to the server's
response.  (`json.Marshal` of `{"listen_port": port}` cannot fail, so
that error path is dead code and not modelled.)  403 is the
distinguished expired-session error; any other non-200 yields a generic
error that embeds the raw response body. -/
def setListeningPort (_port : Int) (r : HttpResult SetResp) : Except String Unit :=
  match r with
  | .netErr m => .error ("failed to set preferences: " ++ m)
  | .ok resp =>
      if resp.status = 403 then .error "authentication expired"
      else if resp.status ≠ 200 then
        .error ("unexpected status code: " ++ toString resp.status ++ ", body: " ++ resp.body)
      else
        .ok ()

/-- One HTTP call as recorded in a cycle's trace. -/
inductive Call where
  | getPort
  | login
  | setPort (p : Int)
deriving DecidableEq, Repr

/-- Server behaviour for one `syncPort` cycle: the response each of the
at most six HTTP calls would receive, by call slot (first GetPort,
re-auth Login at the get site, retried GetPort, first SetPort, re-auth
Login at the set site, retried SetPort). -/
structure Oracle where
  get1 : HttpResult GetResp
  loginA : HttpResult LoginResp
  get2 : HttpResult GetResp
  set1 : HttpResult SetResp
  loginB : HttpResult LoginResp
  set2 : HttpResult SetResp

/-- The error text `syncPort` greps for to detect an expired session. -/
def authExpiredMsg : String := "authentication expired"

/-- Second half of `syncPort` (from the `if currentPort != filePort`
check at line 280 to the final `*lastPort = filePort`): `tr` is the
trace accumulated so far, the result is the new last-known port and the
full trace. -/
def setPhase (o : Oracle) (filePort lastPort currentPort : Int)
    (tr : List Call) : Int × List Call :=
  if currentPort ≠ filePort then
    match setListeningPort filePort o.set1 with
    | .error e =>
        if strContains e authExpiredMsg then
          match login o.loginB with
          | .error _ => (lastPort, tr ++ [.setPort filePort, .login])
          | .ok _ =>
              match setListeningPort filePort o.set2 with
              | .error _ => (lastPort, tr ++ [.setPort filePort, .login, .setPort filePort])
              | .ok _ => (filePort, tr ++ [.setPort filePort, .login, .setPort filePort])
        else (lastPort, tr ++ [.setPort filePort])
    | .ok _ => (filePort, tr ++ [.setPort filePort])
  else
    (filePort, tr)

/-- `syncPort`: one reconciliation cycle.  Input: server behaviour,
port-file content and the last-known port; output: the last-known port
after the cycle and the trace of HTTP calls made. -/
def syncPort (o : Oracle) (file : Option String) (lastPort : Int) :
    Int × List Call :=
  match readPortFile file with
  | .error _ => (lastPort, [])
  | .ok filePort =>
      if filePort = lastPort then (lastPort, [])
      else
        match getListeningPort o.get1 with
        | .error e =>
            if strContains e authExpiredMsg then
              match login o.loginA with
              | .error _ => (lastPort, [.getPort, .login])
              | .ok _ =>
                  match getListeningPort o.get2 with
                  | .error _ => (lastPort, [.getPort, .login, .getPort])
                  | .ok currentPort =>
                      setPhase o filePort lastPort currentPort [.getPort, .login, .getPort]
            else (lastPort, [.getPort])
        | .ok currentPort => setPhase o filePort lastPort currentPort [.getPort]

/-! ## Trace helpers -/

/-- Is this call a Login? -/
def isLoginCall : Call → Bool
  | .login => true
  | _ => false

/-- Is this call a SetPort? -/
def isSetCall : Call → Bool
  | .setPort _ => true
  | _ => false

/-- Number of Login calls in a trace. -/
def loginCount (tr : List Call) : Nat := (tr.filter isLoginCall).length

/-- The calls a cycle makes before its first SetPort: the GetPort call
site together with its re-authentication. -/
def getSiteCalls (tr : List Call) : List Call := tr.takeWhile (fun c => !isSetCall c)

/-- The calls a cycle makes from its first SetPort on: the SetPort call
site together with its re-authentication. -/
def setSiteCalls (tr : List Call) : List Call := tr.dropWhile (fun c => !isSetCall c)

/-- A server that answers no call: every slot is a transport error. -/
def downOracle : Oracle :=
  { get1 := .netErr "down", loginA := .netErr "down", get2 := .netErr "down",
    set1 := .netErr "down", loginB := .netErr "down", set2 := .netErr "down" }

/-- The last-known-port invariant: 0 (the "unknown" initial value from
`var lastPort int` in `main`) or a valid port in [1,65535]. -/
def lastOK (v : Int) : Prop := v = 0 ∨ (1 ≤ v ∧ v ≤ 65535)

/-- The sync loop of `main`: one `syncPort` cycle per tick, threading
the last-known port through; each tick supplies server behaviour and
file content. -/
def runCycles : List (Oracle × Option String) → Int → Int
  | [], last => last
  | (o, f) :: rest, last => runCycles rest (syncPort o f last).1

/-- Server behaviour witnessing C10: GetPort succeeds with 6881, the
first SetPort fails with a 500 whose body happens to contain the text
"authentication expired", and the re-authentication attempt then fails
(server down), showing the loop entered the re-auth path. -/
def misclassOracle : Oracle :=
  { get1 := .ok ⟨200, .ok (some 6881)⟩, loginA := .netErr "down",
    get2 := .netErr "down", set1 := .ok ⟨500, "Banned: authentication expired"⟩,
    loginB := .netErr "down", set2 := .netErr "down" }

/-- Base-10 value of a digit string (the standard decimal reading). -/
def decDigitsVal (ds : List Char) : Nat :=
  ds.foldl (fun a c => 10 * a + (c.toNat - 48)) 0

/-- The spec's reading of the file format — "plain text file whose
trimmed contents are a decimal integer": an optional single sign
followed by one or more ASCII digits, denoting the signed base-10
value.  Definition written from the spec's words, to be compared with
the source-derived `atoi`/`readPortFile`. -/
def decIntRep (s : String) : Option Int :=
  let cs := s.data
  let ds := if cs.head? = some '+' ∨ cs.head? = some '-' then cs.tail else cs
  if ds ≠ [] ∧ ds.all Char.isDigit then
    some (if cs.head? = some '-' then -((decDigitsVal ds : Nat) : Int)
          else ((decDigitsVal ds : Nat) : Int))
  else none

/-! ## Sanity checks on concrete inputs -/

example : readPortFile (some " 30100\n") = .ok 30100 := by decide
example : readPortFile (some "abc") = .error "invalid port number: abc" := by decide
example : readPortFile (some "0") = .error "port number out of range: 0" := by decide
example : strContains "unexpected status code: 500, body: authentication expired" authExpiredMsg = true := by decide
example : strContains "unexpected status code: 500" authExpiredMsg = false := by decide

/-! ## Path lemmas: one per control-flow path of `syncPort` -/

theorem syncPort_read_err (o : Oracle) (file : Option String) (last : Int) (e : String)
    (h : readPortFile file = .error e) : syncPort o file last = (last, []) := by
  unfold syncPort; rw [h]

theorem syncPort_noop (o : Oracle) (file : Option String) (last fp : Int)
    (h : readPortFile file = .ok fp) (he : fp = last) :
    syncPort o file last = (last, []) := by
  unfold syncPort; rw [h]; simp [he]

theorem syncPort_get_plain_err (o : Oracle) (file : Option String) (last fp : Int) (e : String)
    (h : readPortFile file = .ok fp) (hne : fp ≠ last)
    (hg : getListeningPort o.get1 = .error e)
    (hc : strContains e authExpiredMsg = false) :
    syncPort o file last = (last, [.getPort]) := by
  unfold syncPort; rw [h]; simp [hne, hg, hc]

theorem syncPort_reauth_fail (o : Oracle) (file : Option String) (last fp : Int)
    (e e2 : String)
    (h : readPortFile file = .ok fp) (hne : fp ≠ last)
    (hg : getListeningPort o.get1 = .error e)
    (hc : strContains e authExpiredMsg = true)
    (hl : login o.loginA = .error e2) :
    syncPort o file last = (last, [.getPort, .login]) := by
  unfold syncPort; rw [h]; simp [hne, hg, hc, hl]

theorem syncPort_get_retry_fail (o : Oracle) (file : Option String) (last fp : Int)
    (e e2 : String)
    (h : readPortFile file = .ok fp) (hne : fp ≠ last)
    (hg : getListeningPort o.get1 = .error e)
    (hc : strContains e authExpiredMsg = true)
    (hl : login o.loginA = .ok ())
    (hg2 : getListeningPort o.get2 = .error e2) :
    syncPort o file last = (last, [.getPort, .login, .getPort]) := by
  unfold syncPort; rw [h]; simp [hne, hg, hc, hl, hg2]

theorem syncPort_get_retry_ok (o : Oracle) (file : Option String) (last fp cur : Int)
    (e : String)
    (h : readPortFile file = .ok fp) (hne : fp ≠ last)
    (hg : getListeningPort o.get1 = .error e)
    (hc : strContains e authExpiredMsg = true)
    (hl : login o.loginA = .ok ())
    (hg2 : getListeningPort o.get2 = .ok cur) :
    syncPort o file last = setPhase o fp last cur [.getPort, .login, .getPort] := by
  unfold syncPort; rw [h]; simp [hne, hg, hc, hl, hg2]

theorem syncPort_get_ok (o : Oracle) (file : Option String) (last fp cur : Int)
    (h : readPortFile file = .ok fp) (hne : fp ≠ last)
    (hg : getListeningPort o.get1 = .ok cur) :
    syncPort o file last = setPhase o fp last cur [.getPort] := by
  unfold syncPort; rw [h]; simp [hne, hg]

theorem setPhase_already (o : Oracle) (fp last cur : Int) (tr : List Call)
    (h : cur = fp) : setPhase o fp last cur tr = (fp, tr) := by
  unfold setPhase; simp [h]

theorem setPhase_set_ok (o : Oracle) (fp last cur : Int) (tr : List Call)
    (h : cur ≠ fp) (hs : setListeningPort fp o.set1 = .ok ()) :
    setPhase o fp last cur tr = (fp, tr ++ [.setPort fp]) := by
  unfold setPhase; simp [h, hs]

theorem setPhase_set_plain_err (o : Oracle) (fp last cur : Int) (tr : List Call) (e : String)
    (h : cur ≠ fp) (hs : setListeningPort fp o.set1 = .error e)
    (hc : strContains e authExpiredMsg = false) :
    setPhase o fp last cur tr = (last, tr ++ [.setPort fp]) := by
  unfold setPhase; simp [h, hs, hc]

theorem setPhase_reauth_fail (o : Oracle) (fp last cur : Int) (tr : List Call) (e e2 : String)
    (h : cur ≠ fp) (hs : setListeningPort fp o.set1 = .error e)
    (hc : strContains e authExpiredMsg = true)
    (hl : login o.loginB = .error e2) :
    setPhase o fp last cur tr = (last, tr ++ [.setPort fp, .login]) := by
  unfold setPhase; simp [h, hs, hc, hl]

theorem setPhase_retry_fail (o : Oracle) (fp last cur : Int) (tr : List Call) (e e2 : String)
    (h : cur ≠ fp) (hs : setListeningPort fp o.set1 = .error e)
    (hc : strContains e authExpiredMsg = true)
    (hl : login o.loginB = .ok ())
    (hs2 : setListeningPort fp o.set2 = .error e2) :
    setPhase o fp last cur tr = (last, tr ++ [.setPort fp, .login, .setPort fp]) := by
  unfold setPhase; simp [h, hs, hc, hl, hs2]

theorem setPhase_retry_ok (o : Oracle) (fp last cur : Int) (tr : List Call) (e : String)
    (h : cur ≠ fp) (hs : setListeningPort fp o.set1 = .error e)
    (hc : strContains e authExpiredMsg = true)
    (hl : login o.loginB = .ok ())
    (hs2 : setListeningPort fp o.set2 = .ok ()) :
    setPhase o fp last cur tr = (fp, tr ++ [.setPort fp, .login, .setPort fp]) := by
  unfold setPhase; simp [h, hs, hc, hl, hs2]

/-! ## Enumeration of all possible cycle outcomes -/

/-- Every run of the set half of the cycle ends in one of six ways;
in each the trace grows by at most one SetPort/Login/SetPort suffix and
the state either advances to the file port or stays put. -/
theorem setPhase_enum (o : Oracle) (fp last cur : Int) (tr : List Call) :
    setPhase o fp last cur tr = (fp, tr) ∨
    setPhase o fp last cur tr = (fp, tr ++ [.setPort fp]) ∨
    setPhase o fp last cur tr = (last, tr ++ [.setPort fp]) ∨
    setPhase o fp last cur tr = (last, tr ++ [.setPort fp, .login]) ∨
    setPhase o fp last cur tr = (last, tr ++ [.setPort fp, .login, .setPort fp]) ∨
    setPhase o fp last cur tr = (fp, tr ++ [.setPort fp, .login, .setPort fp]) := by
  unfold setPhase
  split
  · split
    · split
      · split
        · simp
        · split <;> simp
      · simp
    · simp
  · simp

/-- Every cycle either ends with the initial state and one of four
get-site traces, or reaches the set half with the get-site trace
`[.getPort]` or `[.getPort, .login, .getPort]` after having read a file
port different from the last-known port. -/
theorem syncPort_enum (o : Oracle) (file : Option String) (last : Int) :
    syncPort o file last = (last, []) ∨
    syncPort o file last = (last, [.getPort]) ∨
    syncPort o file last = (last, [.getPort, .login]) ∨
    syncPort o file last = (last, [.getPort, .login, .getPort]) ∨
    (∃ fp cur pre, readPortFile file = .ok fp ∧ fp ≠ last ∧
      (pre = [Call.getPort] ∨ pre = [.getPort, .login, .getPort]) ∧
      syncPort o file last = setPhase o fp last cur pre) := by
  unfold syncPort
  split
  · simp
  · next fp heq =>
    split
    · simp
    · next hne =>
      split
      · next e hg =>
        split
        · split
          · simp
          · split
            · simp
            · next cur hg2 =>
              refine Or.inr (Or.inr (Or.inr (Or.inr ⟨fp, cur, _, heq, hne, Or.inr rfl, rfl⟩)))
        · simp
      · next cur hg =>
        exact Or.inr (Or.inr (Or.inr (Or.inr ⟨fp, cur, _, heq, hne, Or.inl rfl, rfl⟩)))

/-! ## Claim theorems -/

/-- C3: with file content `30100`, last-known port 0 and a valid session
under which the remote reports listening port 6881, the cycle makes
exactly one GetPort call followed by exactly one SetPort(30100) call,
and on SetPort success the last-known port becomes 30100. -/
theorem claim_C3_scenario (o : Oracle)
    (hg : getListeningPort o.get1 = .ok 6881)
    (hs : setListeningPort 30100 o.set1 = .ok ()) :
    syncPort o (some "30100") 0 = (30100, [.getPort, .setPort 30100]) := by
  rw [syncPort_get_ok o (some "30100") 0 30100 6881 (by decide) (by decide) hg]
  rw [setPhase_set_ok o 30100 0 6881 [.getPort] (by decide) hs]
  rfl

/-- Concrete witness for C3: a session whose GetPort answers 200 with
`listen_port` 6881 and whose SetPort answers 200. -/
theorem claim_C3_witness :
    syncPort
      { get1 := .ok ⟨200, .ok (some 6881)⟩, loginA := .ok ⟨200, "Ok."⟩,
        get2 := .ok ⟨200, .ok (some 6881)⟩, set1 := .ok ⟨200, ""⟩,
        loginB := .ok ⟨200, "Ok."⟩, set2 := .ok ⟨200, ""⟩ }
      (some "30100") 0 = (30100, [.getPort, .setPort 30100]) :=
  claim_C3_scenario _ (by decide) (by decide)

/-- C4: a cycle whose file port equals the last-known port makes no
HTTP call at all and leaves the state unchanged; consequently, once a
cycle has advanced the last-known port to the file port, a further
cycle over the unchanged file makes zero HTTP calls. -/
theorem claim_C4_idempotent (o o2 : Oracle) (file : Option String) (last fp : Int)
    (h : readPortFile file = .ok fp) :
    (fp = last → syncPort o file last = (last, [])) ∧
    ((syncPort o file last).1 = fp →
      syncPort o2 file (syncPort o file last).1 = (fp, [])) := by
  constructor
  · intro he; exact syncPort_noop o file last fp h he
  · intro hc; rw [hc]; exact syncPort_noop o2 file fp fp h rfl

/-- Concrete witness for C4: file port 30100 already equal to the
last-known port; the cycle is a silent no-op, and so is the next one. -/
theorem claim_C4_witness :
    syncPort
      { get1 := .netErr "down", loginA := .netErr "down", get2 := .netErr "down",
        set1 := .netErr "down", loginB := .netErr "down", set2 := .netErr "down" }
      (some "30100") 30100 = (30100, []) :=
  (claim_C4_idempotent
    { get1 := .netErr "down", loginA := .netErr "down", get2 := .netErr "down",
      set1 := .netErr "down", loginB := .netErr "down", set2 := .netErr "down" }
    { get1 := .netErr "down", loginA := .netErr "down", get2 := .netErr "down",
      set1 := .netErr "down", loginB := .netErr "down", set2 := .netErr "down" }
    (some "30100") 30100 30100 (by decide)).1 rfl

/-- C5: when the file port differs from the last-known port but the
remote already reports the file port (on the first GetPort, or on the
retried GetPort after a re-authentication), no SetPort call is made and
the last-known port still advances to the file port. -/
theorem claim_C5_already_satisfied (o : Oracle) (file : Option String) (last fp : Int)
    (h : readPortFile file = .ok fp) (hne : fp ≠ last) :
    (getListeningPort o.get1 = .ok fp →
      syncPort o file last = (fp, [.getPort])) ∧
    (∀ e, getListeningPort o.get1 = .error e → strContains e authExpiredMsg = true →
      login o.loginA = .ok () → getListeningPort o.get2 = .ok fp →
      syncPort o file last = (fp, [.getPort, .login, .getPort])) := by
  constructor
  · intro hg
    rw [syncPort_get_ok o file last fp fp h hne hg]
    exact setPhase_already o fp last fp [.getPort] rfl
  · intro e hg hc hl hg2
    rw [syncPort_get_retry_ok o file last fp fp e h hne hg hc hl hg2]
    exact setPhase_already o fp last fp [.getPort, .login, .getPort] rfl

/-- Concrete witness for C5: file port 30100, last-known 0, remote
already reports 30100; the trace holds no SetPort and the state moves
to 30100. -/
theorem claim_C5_witness :
    syncPort
      { get1 := .ok ⟨200, .ok (some 30100)⟩, loginA := .netErr "down",
        get2 := .netErr "down", set1 := .netErr "down", loginB := .netErr "down",
        set2 := .netErr "down" }
      (some "30100") 0 = (30100, [.getPort]) :=
  (claim_C5_already_satisfied _ (some "30100") 0 30100 (by decide) (by decide)).1 (by decide)

/-- C1: in every cycle each call site performs at most one Login (at
most one in the get half of the trace and at most one in the set half),
and when the single retried call after a re-authentication fails again
— at either site — the cycle ends there with the state untouched and no
further Login. -/
theorem claim_C1_single_reauth (o : Oracle) (file : Option String) (last : Int) :
    loginCount (getSiteCalls (syncPort o file last).2) ≤ 1 ∧
    loginCount (setSiteCalls (syncPort o file last).2) ≤ 1 ∧
    (∀ fp e e2, readPortFile file = .ok fp → fp ≠ last →
      getListeningPort o.get1 = .error e → strContains e authExpiredMsg = true →
      login o.loginA = .ok () → getListeningPort o.get2 = .error e2 →
      syncPort o file last = (last, [.getPort, .login, .getPort])) ∧
    (∀ fp cur e e2, readPortFile file = .ok fp → fp ≠ last →
      getListeningPort o.get1 = .ok cur → cur ≠ fp →
      setListeningPort fp o.set1 = .error e → strContains e authExpiredMsg = true →
      login o.loginB = .ok () → setListeningPort fp o.set2 = .error e2 →
      syncPort o file last = (last, [.getPort, .setPort fp, .login, .setPort fp])) := by
  refine ⟨?_, ?_, ?_, ?_⟩
  · rcases syncPort_enum o file last with h|h|h|h|⟨fp,cur,pre,hr,hne,hpre,h⟩ <;>
      [skip; skip; skip; skip;
       rcases setPhase_enum o fp last cur pre with hs|hs|hs|hs|hs|hs <;>
         rcases hpre with hp|hp <;> subst hp <;> rw [hs] at h] <;>
      rw [h] <;>
      simp [loginCount, getSiteCalls, isLoginCall, isSetCall,
        List.takeWhile, List.filter]
  · rcases syncPort_enum o file last with h|h|h|h|⟨fp,cur,pre,hr,hne,hpre,h⟩ <;>
      [skip; skip; skip; skip;
       rcases setPhase_enum o fp last cur pre with hs|hs|hs|hs|hs|hs <;>
         rcases hpre with hp|hp <;> subst hp <;> rw [hs] at h] <;>
      rw [h] <;>
      simp [loginCount, setSiteCalls, isLoginCall, isSetCall,
        List.dropWhile, List.filter]
  · intro fp e e2 h hne hg hc hl hg2
    exact syncPort_get_retry_fail o file last fp e e2 h hne hg hc hl hg2
  · intro fp cur e e2 h hne hg hcur hs hc hl hs2
    rw [syncPort_get_ok o file last fp cur h hne hg]
    rw [setPhase_retry_fail o fp last cur [.getPort] e e2 hcur hs hc hl hs2]
    rfl

/-- Concrete witness for C1: a session that is expired on both the
first GetPort and the retried GetPort; the cycle performs exactly one
Login and then aborts with the state untouched. -/
theorem claim_C1_witness :
    syncPort
      { get1 := .ok ⟨403, .ok none⟩, loginA := .ok ⟨200, "Ok."⟩,
        get2 := .ok ⟨403, .ok none⟩, set1 := .netErr "down",
        loginB := .netErr "down", set2 := .netErr "down" }
      (some "30100") 0 = (0, [.getPort, .login, .getPort]) :=
  (claim_C1_single_reauth
    { get1 := .ok ⟨403, .ok none⟩, loginA := .ok ⟨200, "Ok."⟩,
      get2 := .ok ⟨403, .ok none⟩, set1 := .netErr "down",
      loginB := .netErr "down", set2 := .netErr "down" }
    (some "30100") 0).2.2.1 30100 "authentication expired" "authentication expired"
    (by decide) (by decide) (by decide) (by decide) (by decide) (by decide)

/-- The state a cycle ends with is either the state it started with or
a port it validated by reading the port file. -/
theorem syncPort_result (o : Oracle) (file : Option String) (last : Int) :
    (syncPort o file last).1 = last ∨
    ∃ fp, readPortFile file = .ok fp ∧ (syncPort o file last).1 = fp := by
  rcases syncPort_enum o file last with h|h|h|h|⟨fp,cur,pre,hr,hne,hpre,h⟩
  · rw [h]; left; rfl
  · rw [h]; left; rfl
  · rw [h]; left; rfl
  · rw [h]; left; rfl
  · rw [h]
    rcases setPhase_enum o fp last cur pre with hs|hs|hs|hs|hs|hs <;> rw [hs] <;>
      first
        | exact Or.inl rfl
        | exact Or.inr ⟨fp, hr, rfl⟩

/-- C2: every aborting path (file read or parse error, plain GetPort
failure, failed re-authentication, failed retried GetPort, plain
SetPort failure, failed re-authentication at the set site, failed
retried SetPort) leaves the last-known port exactly as it was, and in
general the last-known port is only ever rewritten to the port read
from the file in a cycle that ran to completion. -/
theorem claim_C2_abort_frame (o : Oracle) (file : Option String) (last : Int) :
    (∀ e, readPortFile file = .error e → syncPort o file last = (last, [])) ∧
    (∀ fp e, readPortFile file = .ok fp → fp ≠ last →
      getListeningPort o.get1 = .error e → strContains e authExpiredMsg = false →
      (syncPort o file last).1 = last) ∧
    (∀ fp e e2, readPortFile file = .ok fp → fp ≠ last →
      getListeningPort o.get1 = .error e → strContains e authExpiredMsg = true →
      login o.loginA = .error e2 → (syncPort o file last).1 = last) ∧
    (∀ fp e e2, readPortFile file = .ok fp → fp ≠ last →
      getListeningPort o.get1 = .error e → strContains e authExpiredMsg = true →
      login o.loginA = .ok () → getListeningPort o.get2 = .error e2 →
      (syncPort o file last).1 = last) ∧
    (∀ fp cur e, readPortFile file = .ok fp → fp ≠ last →
      getListeningPort o.get1 = .ok cur → cur ≠ fp →
      setListeningPort fp o.set1 = .error e → strContains e authExpiredMsg = false →
      (syncPort o file last).1 = last) ∧
    (∀ fp cur e e2, readPortFile file = .ok fp → fp ≠ last →
      getListeningPort o.get1 = .ok cur → cur ≠ fp →
      setListeningPort fp o.set1 = .error e → strContains e authExpiredMsg = true →
      login o.loginB = .error e2 → (syncPort o file last).1 = last) ∧
    (∀ fp cur e e2, readPortFile file = .ok fp → fp ≠ last →
      getListeningPort o.get1 = .ok cur → cur ≠ fp →
      setListeningPort fp o.set1 = .error e → strContains e authExpiredMsg = true →
      login o.loginB = .ok () → setListeningPort fp o.set2 = .error e2 →
      (syncPort o file last).1 = last) ∧
    ((syncPort o file last).1 = last ∨
      ∃ fp, readPortFile file = .ok fp ∧ (syncPort o file last).1 = fp) := by
  refine ⟨?_, ?_, ?_, ?_, ?_, ?_, ?_, syncPort_result o file last⟩
  · intro e h; exact syncPort_read_err o file last e h
  · intro fp e h hne hg hc
    rw [syncPort_get_plain_err o file last fp e h hne hg hc]
  · intro fp e e2 h hne hg hc hl
    rw [syncPort_reauth_fail o file last fp e e2 h hne hg hc hl]
  · intro fp e e2 h hne hg hc hl hg2
    rw [syncPort_get_retry_fail o file last fp e e2 h hne hg hc hl hg2]
  · intro fp cur e h hne hg hcur hs hc
    rw [syncPort_get_ok o file last fp cur h hne hg,
      setPhase_set_plain_err o fp last cur [.getPort] e hcur hs hc]
  · intro fp cur e e2 h hne hg hcur hs hc hl
    rw [syncPort_get_ok o file last fp cur h hne hg,
      setPhase_reauth_fail o fp last cur [.getPort] e e2 hcur hs hc hl]
  · intro fp cur e e2 h hne hg hcur hs hc hl hs2
    rw [syncPort_get_ok o file last fp cur h hne hg,
      setPhase_retry_fail o fp last cur [.getPort] e e2 hcur hs hc hl hs2]

/-- Concrete witness for C2: a cycle aborted by a SetPort failure (503)
leaves the last-known port at its starting value 0. -/
theorem claim_C2_witness :
    (syncPort
      { get1 := .ok ⟨200, .ok (some 6881)⟩, loginA := .netErr "down",
        get2 := .netErr "down", set1 := .ok ⟨503, "busy"⟩,
        loginB := .netErr "down", set2 := .netErr "down" }
      (some "30100") 0).1 = 0 :=
  (claim_C2_abort_frame
    { get1 := .ok ⟨200, .ok (some 6881)⟩, loginA := .netErr "down",
      get2 := .netErr "down", set1 := .ok ⟨503, "busy"⟩,
      loginB := .netErr "down", set2 := .netErr "down" }
    (some "30100") 0).2.2.2.2.1 30100 6881 "unexpected status code: 503, body: busy"
    (by decide) (by decide) (by decide) (by decide) (by decide) (by decide)

/-- A string with a strictly longer first part can never equal a
shorter target; used to separate the generic error messages from the
distinguished expired-session message. -/
theorem append_ne_of_length_lt (a b t : String) (h : t.length < a.length) :
    a ++ b ≠ t := by
  intro hc
  have hl := congrArg String.length hc
  rw [String.length_append] at hl
  omega

/-- Same, for a four-part concatenation whose first part is already too
long for the target. -/
theorem append3_ne_of_length_lt (a s c b t : String) (h : t.length < a.length) :
    ((a ++ s) ++ c) ++ b ≠ t := by
  intro hc
  have hl := congrArg String.length hc
  simp only [String.length_append] at hl
  omega

/-- C7: both preference calls return the distinguished expired-session
error exactly on a response with the forbidden status 403, and never on
a transport error or any other status. -/
theorem claim_C7_expired_iff_403 (r : HttpResult GetResp) (p : Int) (q : HttpResult SetResp) :
    (getListeningPort r = .error authExpiredMsg ↔
      ∃ resp, r = .ok resp ∧ resp.status = 403) ∧
    (setListeningPort p q = .error authExpiredMsg ↔
      ∃ resp, q = .ok resp ∧ resp.status = 403) := by
  constructor
  · constructor
    · intro h
      cases r with
      | netErr m =>
          simp only [getListeningPort] at h
          exact absurd (Except.error.inj h) (append_ne_of_length_lt _ _ _ (by decide))
      | ok resp =>
          simp only [getListeningPort] at h
          refine ⟨resp, rfl, ?_⟩
          by_contra hne
          rw [if_neg hne] at h
          by_cases h200 : resp.status = 200
          · rw [if_neg (by simp [h200])] at h
            cases hd : resp.decode with
            | error m =>
                rw [hd] at h
                exact absurd (Except.error.inj h) (append_ne_of_length_lt _ _ _ (by decide))
            | ok v =>
                rw [hd] at h
                cases v with
                | none => exact absurd (Except.error.inj h) (by decide)
                | some x => exact Except.noConfusion h
          · rw [if_pos (by simp [h200])] at h
            exact absurd (Except.error.inj h) (append_ne_of_length_lt _ _ _ (by decide))
    · rintro ⟨resp, rfl, hs⟩
      simp only [getListeningPort]
      rw [if_pos hs]
      rfl
  · constructor
    · intro h
      cases q with
      | netErr m =>
          simp only [setListeningPort] at h
          exact absurd (Except.error.inj h) (append_ne_of_length_lt _ _ _ (by decide))
      | ok resp =>
          simp only [setListeningPort] at h
          refine ⟨resp, rfl, ?_⟩
          by_contra hne
          rw [if_neg hne] at h
          by_cases h200 : resp.status = 200
          · rw [if_neg (by simp [h200])] at h
            exact Except.noConfusion h
          · rw [if_pos (by simp [h200])] at h
            exact absurd (Except.error.inj h)
              (append3_ne_of_length_lt "unexpected status code: " _ _ _ _ (by decide))
    · rintro ⟨resp, rfl, hs⟩
      simp only [setListeningPort]
      rw [if_pos hs]
      rfl

/-- Concrete witness for C7: a 403 on GetPort yields the expired-session
error, and it comes from a 403 response. -/
theorem claim_C7_witness :
    ∃ resp, (HttpResult.ok (⟨403, .ok none⟩ : GetResp)) = .ok resp ∧ resp.status = 403 :=
  (claim_C7_expired_iff_403 (.ok ⟨403, .ok none⟩) 30100 (.netErr "down")).1.mp (by decide)

/-- C8: Login succeeds exactly when the response has status 200 and a
body whose trimmed form is the literal acknowledgement text; every
transport error and every other status/body combination fails. -/
theorem claim_C8_login_iff (r : HttpResult LoginResp) :
    login r = .ok () ↔
      ∃ resp, r = .ok resp ∧ resp.status = 200 ∧ trimSpace resp.body = "Ok." := by
  cases r with
  | netErr m =>
      constructor
      · intro h; exact Except.noConfusion h
      · rintro ⟨resp, h, -⟩; exact HttpResult.noConfusion h
  | ok resp =>
      simp only [login]
      by_cases h : resp.status ≠ 200 ∨ trimSpace resp.body ≠ "Ok."
      · rw [if_pos h]
        constructor
        · intro hc; exact Except.noConfusion hc
        · rintro ⟨resp', heq, h200, hbody⟩
          cases HttpResult.ok.inj heq
          rcases h with h | h <;> exact absurd (by assumption) h
      · rw [if_neg h]
        push_neg at h
        exact ⟨fun _ => ⟨resp, rfl, h.1, h.2⟩, fun _ => rfl⟩

/-- Concrete witness for C8: status 200 with body `" Ok.\n"` (trimming
to the literal) is accepted. -/
theorem claim_C8_witness :
    login (.ok ⟨200, " Ok.\n"⟩) = .ok () :=
  (claim_C8_login_iff (.ok ⟨200, " Ok.\n"⟩)).mpr ⟨⟨200, " Ok.\n"⟩, rfl, rfl, by decide⟩

/-- `readPortFile` only ever returns a port inside [1,65535]. -/
theorem readPortFile_range (file : Option String) (fp : Int)
    (h : readPortFile file = .ok fp) : 1 ≤ fp ∧ fp ≤ 65535 := by
  cases file with
  | none => exact Except.noConfusion h
  | some data =>
      unfold readPortFile at h
      dsimp only at h
      cases hA : atoi (trimSpace data) with
      | none => rw [hA] at h; exact Except.noConfusion h
      | some port =>
          rw [hA] at h
          dsimp only at h
          by_cases hr : port < 1 ∨ 65535 < port
          · rw [if_pos hr] at h; exact Except.noConfusion h
          · rw [if_neg hr] at h
            cases Except.ok.inj h
            push_neg at hr
            omega

/-- A cycle that reads a file port different from the last-known port
always opens with a GetPort call. -/
theorem syncPort_trace_head (o : Oracle) (file : Option String) (last fp : Int)
    (h : readPortFile file = .ok fp) (hne : fp ≠ last) :
    ∃ tl, (syncPort o file last).2 = .getPort :: tl := by
  unfold syncPort
  rw [h]
  simp only [hne, if_false]
  split
  · split
    · split
      · exact ⟨_, rfl⟩
      · split
        · exact ⟨_, rfl⟩
        · rcases setPhase_enum o fp last _ [.getPort, .login, .getPort]
            with he|he|he|he|he|he <;> rw [he] <;> exact ⟨_, rfl⟩
    · exact ⟨_, rfl⟩
  · rcases setPhase_enum o fp last _ [.getPort]
      with he|he|he|he|he|he <;> rw [he] <;> exact ⟨_, rfl⟩

/-- One cycle preserves the last-known-port invariant. -/
theorem syncPort_lastOK (o : Oracle) (file : Option String) (last : Int)
    (h : lastOK last) : lastOK (syncPort o file last).1 := by
  rcases syncPort_result o file last with hr | ⟨fp, hread, hr⟩
  · rw [hr]; exact h
  · rw [hr]; exact Or.inr (readPortFile_range file fp hread)

/-- Any run of the loop from the initial 0 keeps the invariant. -/
theorem runCycles_lastOK (cycles : List (Oracle × Option String)) :
    ∀ last, lastOK last → lastOK (runCycles cycles last) := by
  induction cycles with
  | nil => intro last h; exact h
  | cons c rest ih =>
      intro last h
      exact ih _ (syncPort_lastOK c.1 c.2 last h)

/-- C9: after any number of cycles from the initial value 0 the
last-known port is 0 or a port in [1,65535]; `readPortFile` validates
every port it returns to lie in [1,65535]; and consequently a cycle
whose file port is valid never short-circuits at the comparison while
the last-known port is still 0 — it always makes at least its first
GetPort call. -/
theorem claim_C9_invariant :
    (∀ cycles : List (Oracle × Option String), lastOK (runCycles cycles 0)) ∧
    (∀ file fp, readPortFile file = .ok fp → 1 ≤ fp ∧ fp ≤ 65535) ∧
    (∀ (o : Oracle) file fp, readPortFile file = .ok fp →
      ∃ tl, (syncPort o file 0).2 = .getPort :: tl) := by
  refine ⟨ fun cycles => runCycles_lastOK cycles 0 (Or.inl rfl),
    fun file fp h => readPortFile_range file fp h, ?_ ⟩
  intro o file fp h
  have hfp : fp ≠ (0 : Int) := by
    have := readPortFile_range file fp h
    omega
  exact syncPort_trace_head o file 0 fp h hfp

/-- Concrete witness for C9: one aborted cycle (server down) from the
initial state keeps the invariant, and the valid file port 30100 forces
the cycle past the comparison into its GetPort call. -/
theorem claim_C9_witness :
    lastOK (runCycles [(downOracle, some "30100")] 0) ∧
    ∃ tl, (syncPort downOracle (some "30100") 0).2 = .getPort :: tl :=
  ⟨ claim_C9_invariant.1 [(downOracle, some "30100")],
    claim_C9_invariant.2.2 downOracle (some "30100") 30100 (by decide) ⟩

/-- An occurrence in a suffix is an occurrence in the whole list. -/
theorem listOccurs_append_right (pat xs ys : List Char)
    (h : listOccurs pat ys = true) : listOccurs pat (xs ++ ys) = true := by
  induction xs with
  | nil => simpa using h
  | cons c cs ih => simp [listOccurs, ih]

/-- `strings.Contains` finds a pattern of a suffix in the whole string. -/
theorem strContains_append_right (x y pat : String)
    (h : strContains y pat = true) : strContains (x ++ y) pat = true := by
  unfold strContains at h ⊢
  rw [String.data_append]
  exact listOccurs_append_right pat.data x.data y.data h

/-- C10: the loop detects an expired session by substring-matching the
error text for "authentication expired", and SetListeningPort embeds
the raw response body into its generic non-403 error; hence any non-403
SetPort failure whose body contains that text yields an error the loop
misclassifies, and the cycle takes the re-authentication-plus-retry
path (a Login follows the failed SetPort in the trace) instead of a
plain abort. -/
theorem claim_C10_substring_misclass (p : Int) (resp : SetResp) (e : String)
    (hs : setListeningPort p (.ok resp) = .error e)
    (h403 : resp.status ≠ 403)
    (hb : strContains resp.body authExpiredMsg = true) :
    strContains e authExpiredMsg = true ∧
    (∀ (o : Oracle) file last fp cur, readPortFile file = .ok fp → fp ≠ last →
      getListeningPort o.get1 = .ok cur → cur ≠ fp → o.set1 = .ok resp →
      ∃ rest, (syncPort o file last).2 = .getPort :: .setPort fp :: .login :: rest) := by
  have he : e = "unexpected status code: " ++ toString resp.status ++ ", body: " ++ resp.body := by
    simp only [setListeningPort] at hs
    rw [if_neg h403] at hs
    by_cases h200 : resp.status = 200
    · rw [if_neg (by simp [h200])] at hs
      exact Except.noConfusion hs
    · rw [if_pos (by simp [h200])] at hs
      exact (Except.error.inj hs).symm
  have hce : strContains e authExpiredMsg = true := by
    rw [he]
    exact strContains_append_right _ resp.body authExpiredMsg hb
  refine ⟨hce, ?_⟩
  intro o file last fp cur hr hne hg hcur hset
  rw [syncPort_get_ok o file last fp cur hr hne hg]
  unfold setPhase
  rw [if_pos hcur]
  have hs' : setListeningPort fp o.set1 = .error e := by rw [hset]; exact hs
  simp only [hs', hce, if_true]
  split
  · exact ⟨_, rfl⟩
  · split <;> exact ⟨_, rfl⟩

/-- Concrete witness for C10: the 500-with-poisoned-body SetPort
failure is treated as session expiry and a Login call follows it. -/
theorem claim_C10_witness :
    strContains "unexpected status code: 500, body: Banned: authentication expired"
      authExpiredMsg = true ∧
    ∃ rest, (syncPort misclassOracle (some "30100") 0).2 =
      .getPort :: .setPort 30100 :: .login :: rest := by
  have T := claim_C10_substring_misclass 30100 ⟨500, "Banned: authentication expired"⟩
    "unexpected status code: 500, body: Banned: authentication expired"
    (by decide) (by decide) (by decide)
  exact ⟨T.1, T.2 misclassOracle (some "30100") 0 30100 6881
    (by decide) (by decide) (by decide) (by decide) rfl⟩

theorem digitsLoop_eq (ds : List Char) : ∀ acc : Nat,
    digitsLoop ds acc =
      if ds.all Char.isDigit then
        some (ds.foldl (fun a c => 10 * a + (c.toNat - 48)) acc)
      else none := by
  induction ds with
  | nil => intro acc; simp [digitsLoop]
  | cons c cs ih =>
      intro acc
      by_cases hc : c.isDigit
      · simp [digitsLoop, hc, ih]
      · simp [digitsLoop, hc]

/-- The option-threaded digit loop of `Atoi` agrees with "all digits,
read in base 10". -/
theorem digitsToNat_eq (ds : List Char) :
    digitsToNat ds =
      if ds ≠ [] ∧ ds.all Char.isDigit then some (decDigitsVal ds) else none := by
  cases ds with
  | nil => simp [digitsToNat]
  | cons c cs => simp [digitsToNat, digitsLoop_eq, decDigitsVal]

theorem pow63 : (2 : Int) ^ 63 = 9223372036854775808 := by norm_num

/-- `Atoi` succeeds exactly on strings that denote a decimal integer
within the signed 64-bit range, and returns that value. -/
theorem atoi_some_iff (s : String) (p : Int) :
    atoi s = some p ↔
      decIntRep s = some p ∧ -(2 ^ 63) ≤ p ∧ p ≤ 2 ^ 63 - 1 := by
  unfold atoi decIntRep
  dsimp only
  rw [digitsToNat_eq]
  by_cases hall :
      (if s.data.head? = some '+' ∨ s.data.head? = some '-' then s.data.tail
        else s.data) ≠ [] ∧
      (if s.data.head? = some '+' ∨ s.data.head? = some '-' then s.data.tail
        else s.data).all Char.isDigit
  · rw [if_pos hall, if_pos hall]
    dsimp only
    by_cases hP :
        (if s.data.head? = some '-' then
            -((decDigitsVal (if s.data.head? = some '+' ∨ s.data.head? = some '-'
              then s.data.tail else s.data) : Nat) : Int)
          else ((decDigitsVal (if s.data.head? = some '+' ∨ s.data.head? = some '-'
              then s.data.tail else s.data) : Nat) : Int)) < -(2 ^ 63) ∨
        (2 : Int) ^ 63 - 1 <
          (if s.data.head? = some '-' then
            -((decDigitsVal (if s.data.head? = some '+' ∨ s.data.head? = some '-'
              then s.data.tail else s.data) : Nat) : Int)
          else ((decDigitsVal (if s.data.head? = some '+' ∨ s.data.head? = some '-'
              then s.data.tail else s.data) : Nat) : Int))
    · rw [if_pos hP]
      constructor
      · intro h; exact Option.noConfusion h
      · rintro ⟨hd, h1, h2⟩
        cases Option.some.inj hd
        rw [pow63] at hP h1 h2
        omega
    · rw [if_neg hP]
      push_neg at hP
      constructor
      · intro h
        cases Option.some.inj h
        exact ⟨rfl, hP.1, hP.2⟩
      · rintro ⟨hd, h1, h2⟩
        rw [Option.some.inj hd]
  · rw [if_neg hall, if_neg hall]
    constructor
    · intro h; exact Option.noConfusion h
    · rintro ⟨hd, -, -⟩; exact Option.noConfusion hd

/-- `readPortFile` accepts a present file exactly when its trimmed
contents denote a decimal integer in [1,65535], returning that value. -/
theorem readPortFile_ok_iff (content : String) (p : Int) :
    readPortFile (some content) = .ok p ↔
      decIntRep (trimSpace content) = some p ∧ 1 ≤ p ∧ p ≤ 65535 := by
  unfold readPortFile
  dsimp only
  cases hA : atoi (trimSpace content) with
  | none =>
      dsimp only
      constructor
      · intro h; exact Except.noConfusion h
      · rintro ⟨hd, h1, h2⟩
        have hs := (atoi_some_iff (trimSpace content) p).mpr
          ⟨hd, by rw [pow63]; omega, by rw [pow63]; omega⟩
        rw [hA] at hs
        exact Option.noConfusion hs
  | some n =>
      dsimp only
      have hn := (atoi_some_iff (trimSpace content) n).mp hA
      by_cases hr : n < 1 ∨ 65535 < n
      · rw [if_pos hr]
        constructor
        · intro h; exact Except.noConfusion h
        · rintro ⟨hd, h1, h2⟩
          rw [hn.1] at hd
          cases Option.some.inj hd
          omega
      · rw [if_neg hr]
        push_neg at hr
        constructor
        · intro h
          cases Except.ok.inj h
          exact ⟨hn.1, by omega, by omega⟩
        · rintro ⟨hd, h1, h2⟩
          rw [hn.1] at hd
          rw [Option.some.inj hd]

/-- C6: `readPortFile` succeeds exactly on file contents whose
whitespace-trimmed form is a decimal integer in [1,65535], returning
that integer; every other content (non-integer text, or an integer out
of range) yields an error. -/
theorem claim_C6_readPortFile_spec (content : String) (p : Int) :
    (readPortFile (some content) = .ok p ↔
      decIntRep (trimSpace content) = some p ∧ 1 ≤ p ∧ p ≤ 65535) ∧
    ((¬ ∃ q, decIntRep (trimSpace content) = some q ∧ 1 ≤ q ∧ q ≤ 65535) →
      ∃ e, readPortFile (some content) = .error e) := by
  refine ⟨readPortFile_ok_iff content p, ?_⟩
  intro hno
  cases hr : readPortFile (some content) with
  | error e => exact ⟨e, rfl⟩
  | ok q =>
      exact absurd ⟨q, (readPortFile_ok_iff content q).mp hr⟩ hno

/-- Concrete witness for C6: `" 30100\n"` trims to the decimal integer
30100 (in range) and is accepted with that value, and `"abc"` denotes
no in-range decimal integer and is rejected with an error. -/
theorem claim_C6_witness :
    readPortFile (some " 30100\n") = .ok 30100 ∧
    ∃ e, readPortFile (some "abc") = .error e :=
  ⟨(claim_C6_readPortFile_spec " 30100\n" 30100).1.mpr ⟨by decide, by decide, by decide⟩,
   (claim_C6_readPortFile_spec "abc" 0).2 (by decide)⟩
